import Mathlib

/-!
Verification of the mlflow front-end view-state store and polling controller.

Part 1: the polling controller of `ModelPageImpl`
(src/mlflow/server/js, ModelPage component).  The component tracks two
polling request ids (`getRegisteredModelApiId`, `searchModelVersionsApiId`);
`pollData` re-fetches both resources unless `hasPendingPollingRequest()`
holds or the browser tab is hidden, and on a `RESOURCE_DOES_NOT_EXIST`
failure it logs, evicts the model from local state (a local-only delete
action) and pushes the model-list route; any other failure is logged to the
console and swallowed.  The polling interval is started in
`componentDidMount` and cleared in `componentWillUnmount`.
-/

/-- Error code tested by `pollData`'s catch handler. -/
def notFoundCode : String := "RESOURCE_DOES_NOT_EXIST"

/-- A representative transient error code, distinct from the not-found code. -/
def otherErrorCode : String := "INTERNAL_ERROR"

/-- The slice of the redux `apis` state holding the two polling-related
requests.  `none` models an absent entry (`apis[requestId]` undefined);
`some b` a request object whose `active` flag is `b`. -/
structure ApisSlice where
  getRegisteredModelReq : Option Bool
  searchModelVersionsReq : Option Bool
deriving DecidableEq, Repr

/-- `Boolean(request && request.active)` for one request entry. -/
def requestActive (r : Option Bool) : Bool := r.getD false

/-- `pollingRelatedRequestIds`: the two tracked request entries, in the
order `[getRegisteredModelApiId, searchModelVersionsApiId]`. -/
def pollingRelatedRequests (apis : ApisSlice) : List (Option Bool) :=
  [apis.getRegisteredModelReq, apis.searchModelVersionsReq]

/-- `hasPendingPollingRequest`: the source maps `.every` over
`pollingRelatedRequestIds`, so this is true only when EVERY tracked
request exists and is active. -/
def hasPendingPollingRequest (apis : ApisSlice) : Bool :=
  (pollingRelatedRequests apis).all requestActive

/-- Outcome of the pair of fetches issued by `loadData`. -/
inductive FetchOutcome where
  | success
  | failure (errorCode : String)
deriving DecidableEq, Repr

/-- The component-relevant state: tracked requests, whether the model is
present in `state.entities.modelByName`, whether the `setInterval` timer
is still registered, and whether `history.push` has been invoked. -/
structure ModelPageState where
  apis : ApisSlice
  modelPresent : Bool
  intervalActive : Bool
  redirected : Bool
deriving DecidableEq, Repr

/-- Observable effects of one `pollData` invocation. -/
structure PollEffects where
  issuedFetch : Bool
  loggedError : Bool
  evictedModel : Bool
  redirected : Bool
  clearedInterval : Bool
  resolved : Bool
deriving DecidableEq, Repr

/-- Effects of an invocation that falls through to `return Promise.resolve()`
or whose tick does not run: nothing happens, the result is resolved. -/
def noFetchEffects : PollEffects :=
  { issuedFetch := false, loggedError := false, evictedModel := false
    redirected := false, clearedInterval := false, resolved := true }

/-- State after `loadData()`'s two promises settle: both tracked request
entries exist and are inactive (completed). -/
def loadDataComplete (s : ModelPageState) : ModelPageState :=
  { s with apis := ⟨some false, some false⟩ }

/-- `pollData`, with the completion of the issued fetches folded into the
same step (the event-loop schedule in which the fetches settle before the
next timer tick).  Mirrors the source: fetch iff
`!this.hasPendingPollingRequest() && Utils.isBrowserTabVisible()`; the
catch handler tests `e.getErrorCode() === 'RESOURCE_DOES_NOT_EXIST'` and
then logs, dispatches a local-only `deleteRegisteredModelApi` and pushes
the model-list route; otherwise it only logs.  No branch clears the
interval and every branch yields a resolved promise. -/
def pollData (tabVisible : Bool) (outcome : FetchOutcome) (s : ModelPageState) :
    ModelPageState × PollEffects :=
  if !(hasPendingPollingRequest s.apis) && tabVisible then
    match outcome with
    | FetchOutcome.success =>
        (loadDataComplete s,
         { issuedFetch := true, loggedError := false, evictedModel := false
           redirected := false, clearedInterval := false, resolved := true })
    | FetchOutcome.failure code =>
        if code == notFoundCode then
          ({ loadDataComplete s with modelPresent := false, redirected := true },
           { issuedFetch := true, loggedError := true, evictedModel := true
             redirected := true, clearedInterval := false, resolved := true })
        else
          (loadDataComplete s,
           { issuedFetch := true, loggedError := true, evictedModel := false
             redirected := false, clearedInterval := false, resolved := true })
  else (s, noFetchEffects)

/-- One tick of the interval registered by `componentDidMount`: it invokes
`pollData` only while the interval has not been cleared. -/
def timerTick (tabVisible : Bool) (outcome : FetchOutcome) (s : ModelPageState) :
    ModelPageState × PollEffects :=
  if s.intervalActive then pollData tabVisible outcome s else (s, noFetchEffects)

/-- `componentWillUnmount`: `clearInterval(this.pollIntervalId)`. -/
def componentWillUnmount (s : ModelPageState) : ModelPageState :=
  { s with intervalActive := false }

/-- State right after `componentDidMount` in which the initial `loadData(true)`
used the separate init request ids, so the two polling entries are absent,
the model is present and the interval is registered. -/
def mountedState : ModelPageState :=
  { apis := ⟨none, none⟩, modelPresent := true, intervalActive := true
    redirected := false }

/-- A state in which exactly one tracked polling request is active: the
`getRegisteredModelApi` request is in flight, the `searchModelVersionsApi`
request has completed. -/
def oneActiveState : ModelPageState :=
  { apis := ⟨some true, some false⟩, modelPresent := true
    intervalActive := true, redirected := false }

/-!
Part 2: the view-state store of `ExperimentView` (diff switch and
categorized unchecked keys).  The implementing component is not among the
source files (only `ExperimentView.test.js` is), so the store is modelled
from the spec (sections 3 and 4.1) as the persisted view state with its
`setUnchecked` / `toggleDiff` operations and the external diff function.
-/

/-- `COLUMN_TYPES`: the four column categories. -/
inductive ColumnSet where
  | attributes
  | params
  | metrics
  | tags
deriving DecidableEq, Repr

/-- `UncheckedKeys`: one list of hidden column names per category. -/
structure CategorizedKeys where
  attributes : List String
  params : List String
  metrics : List String
  tags : List String
deriving DecidableEq, Repr

/-- Write the keys of one category, keeping the other three. -/
def CategorizedKeys.setCat (m : CategorizedKeys) :
    ColumnSet → List String → CategorizedKeys
  | ColumnSet.attributes, ks => { m with attributes := ks }
  | ColumnSet.params, ks => { m with params := ks }
  | ColumnSet.metrics, ks => { m with metrics := ks }
  | ColumnSet.tags, ks => { m with tags := ks }

/-- `DEFAULT_CATEGORIZED_UNCHECKED_KEYS`: every category starts with no
hidden columns. -/
def emptyCategorizedKeys : CategorizedKeys := ⟨[], [], [], []⟩

/-- `PersistedViewState` (spec section 3): the active unchecked keys, the
diff-switch flag, and the two saved maps. -/
structure PersistedViewState where
  uncheckedKeys : CategorizedKeys
  diffSwitchSelected : Bool
  preSwitchUncheckedKeys : CategorizedKeys
  postSwitchUncheckedKeys : CategorizedKeys
deriving DecidableEq, Repr

/-- Initial persisted view state: diff switch off, all key sets empty. -/
def initialViewState : PersistedViewState :=
  { uncheckedKeys := emptyCategorizedKeys, diffSwitchSelected := false
    preSwitchUncheckedKeys := emptyCategorizedKeys
    postSwitchUncheckedKeys := emptyCategorizedKeys }

/-- Modelled from the spec: `setUnchecked(columnSet, keys)` of the
View-State Store (section 4.1), whose implementing component is absent
from the source files.  It writes into whichever of the pre/post-switch
maps is currently active and keeps `uncheckedKeys` equal to that active
map (for diff mode off this is the spec's "also writes directly into
`uncheckedKeys`"; for diff mode on the sync is required by the section 3
invariant `uncheckedKeys == postSwitchUncheckedKeys`). -/
def setUnchecked (cs : ColumnSet) (keys : List String) (s : PersistedViewState) :
    PersistedViewState :=
  if s.diffSwitchSelected then
    { s with
        postSwitchUncheckedKeys := s.postSwitchUncheckedKeys.setCat cs keys
        uncheckedKeys := s.uncheckedKeys.setCat cs keys }
  else
    { s with
        preSwitchUncheckedKeys := s.preSwitchUncheckedKeys.setCat cs keys
        uncheckedKeys := s.uncheckedKeys.setCat cs keys }

/-- Modelled from the spec: `toggleDiff()` (section 4.1), whose
implementing component is absent from the source files.  On enabling it
first saves the current `uncheckedKeys` into `preSwitchUncheckedKeys`,
then sets both `postSwitchUncheckedKeys` and `uncheckedKeys` to the result
of the external diff function (passed in as `diffCols`); on disabling it
restores `uncheckedKeys` from `preSwitchUncheckedKeys`, each side's saved
map surviving the toggle. -/
def toggleDiff (diffCols : CategorizedKeys) (s : PersistedViewState) :
    PersistedViewState :=
  if s.diffSwitchSelected then
    { s with diffSwitchSelected := false, uncheckedKeys := s.preSwitchUncheckedKeys }
  else
    { s with
        diffSwitchSelected := true
        preSwitchUncheckedKeys := s.uncheckedKeys
        postSwitchUncheckedKeys := diffCols
        uncheckedKeys := diffCols }

/-- A row's value for a column, `none` when the row lacks the column. -/
def lookupVal (row : List (String × String)) (k : String) : Option String :=
  (row.find? (fun p => p.fst == k)).map Prod.snd

/-- Whether every row yields the same value for column `k`. -/
def sameAcrossRows (rows : List (List (String × String))) (k : String) : Bool :=
  match rows with
  | [] => true
  | r :: rs => rs.all (fun row => lookupVal row k == lookupVal r k)

/-- The columns among `keys` whose values are identical across all rows. -/
def diffViewCols (keys : List String) (rows : List (List (String × String))) :
    List String :=
  keys.filter (fun k => sameAcrossRows rows k)

/-- The per-category column keys and row values the diff function reads. -/
structure TableData where
  attrKeys : List String
  paramKeys : List String
  metricKeys : List String
  tagKeys : List String
  attrsList : List (List (String × String))
  paramsList : List (List (String × String))
  metricsList : List (List (String × String))
  tagsList : List (List (String × String))
deriving DecidableEq, Repr

/-- Modelled from the spec: the external diff function
`computeDiffColumns(rows) -> UncheckedKeys` (sections 4.1 and 6) — per
category, the set of columns whose values are identical across all rows. -/
def computeDiffColumns (t : TableData) : CategorizedKeys :=
  ⟨diffViewCols t.attrKeys t.attrsList, diffViewCols t.paramKeys t.paramsList,
   diffViewCols t.metricKeys t.metricsList, diffViewCols t.tagKeys t.tagsList⟩

/-- One operation of the view-state store. -/
inductive ViewOp where
  | setOp (cs : ColumnSet) (keys : List String)
  | toggleOp (diffCols : CategorizedKeys)
deriving DecidableEq, Repr

/-- Apply one store operation. -/
def applyViewOp (s : PersistedViewState) : ViewOp → PersistedViewState
  | ViewOp.setOp cs keys => setUnchecked cs keys s
  | ViewOp.toggleOp d => toggleDiff d s

/-- Run a sequence of store operations from the initial state. -/
def runViewOps (ops : List ViewOp) : PersistedViewState :=
  ops.foldl applyViewOp initialViewState

/-- Apply a sequence of `setUnchecked` edits. -/
def applySetEdits (edits : List (ColumnSet × List String)) (s : PersistedViewState) :
    PersistedViewState :=
  edits.foldl (fun st e => setUnchecked e.fst e.snd st) s

/-- Spec section 3 invariant: `uncheckedKeys` equals the saved map of the
currently active side of the switch. -/
def viewInvariant (s : PersistedViewState) : Prop :=
  (s.diffSwitchSelected = true → s.uncheckedKeys = s.postSwitchUncheckedKeys) ∧
  (s.diffSwitchSelected = false → s.uncheckedKeys = s.preSwitchUncheckedKeys)

/-- A concrete diff-off state used by the concrete-input theorems. -/
def sampleOffState : PersistedViewState :=
  { uncheckedKeys := ⟨[], ["p0"], [], ["t0"]⟩, diffSwitchSelected := false
    preSwitchUncheckedKeys := ⟨[], ["p0"], [], ["t0"]⟩
    postSwitchUncheckedKeys := emptyCategorizedKeys }

/-- Concrete table data: two rows agreeing on `p1` and differing on `p2`. -/
def sampleTable : TableData :=
  { attrKeys := [], paramKeys := ["p1", "p2"], metricKeys := ["m1"], tagKeys := []
    attrsList := [[], []]
    paramsList := [[("p1", "1"), ("p2", "1")], [("p1", "1"), ("p2", "2")]]
    metricsList := [[("m1", "5")], [("m1", "7")]]
    tagsList := [[], []] }

/-- A concrete result of the external diff function. -/
def sampleDiffCols : CategorizedKeys := ⟨["a1"], ["p1"], ["m1"], ["t1"]⟩

/-!
Part 3: CSV export (`onDownloadCsv` of `ExperimentView`).  The
implementation is likewise absent from the source files; the pipeline is
modelled from the spec (section 4.1, `toCsv`) with the system-tag handling
pinned by the expected CSV outputs of the Download CSV tests in
`ExperimentView.test.js` (fixed attribute cells populated from the
`mlflow.`-prefixed tags, which never appear as tag columns).
-/

/-- The `mlflow.` internal tag prefix (`MLFLOW_INTERNAL_PREFIX`). -/
def internalTagStart : String := "mlflow."

/-- Whether a tag key carries the internal `mlflow.` prefix
(JS `tagKey.startsWith(MLFLOW_INTERNAL_PREFIX)`). -/
def hasInternalTagStart (k : String) : Bool :=
  internalTagStart.data.isPrefixOf k.data

/-- System tag populating the fixed `Name` column. -/
def runNameTagKey : String := "mlflow.runName"

/-- System tag populating the fixed `Source Type` column. -/
def sourceTypeTagKey : String := "mlflow.source.type"

/-- System tag populating the fixed `Source Name` column. -/
def sourceNameTagKey : String := "mlflow.source.name"

/-- System tag populating the fixed `User` column. -/
def userTagKey : String := "mlflow.user"

/-- The cell separator of the produced comma-separated table. -/
def cellSep : String := ","

/-- The line terminator of the produced comma-separated table. -/
def rowEnd : String := "\n"

/-- Value of an absent cell. -/
def emptyCell : String := ""

/-- Per-run attribute data whose formatting (timestamps, durations) is out
of the spec's scope; carried as already-stringified values. -/
structure RunInfoRow where
  startTime : String
  duration : String
  runId : String
  status : String
deriving DecidableEq, Repr

/-- One table row: run attributes plus its param, metric and tag entries. -/
structure RunData where
  info : RunInfoRow
  params : List (String × String)
  metrics : List (String × String)
  tags : List (String × String)
deriving DecidableEq, Repr

/-- Stringified cell value for column `k` of a row; absent values print as
the empty cell. -/
def cellValue (row : List (String × String)) (k : String) : String :=
  (lookupVal row k).getD emptyCell

/-- Modelled from the spec: the fixed leading columns of `toCsv`. -/
def fixedCsvColumns : List String :=
  ["Start Time", "Duration", "Run ID", "Name", "Source Type", "Source Name",
   "User", "Status"]

/-- Keep only the keys not listed in the unchecked-key set of a category. -/
def getFilteredKeys (keys uncheckedCat : List String) : List String :=
  keys.filter (fun k => !(uncheckedCat.contains k))

/-- Modelled from the spec and the Download CSV tests: the tag keys eligible
as tag columns — every key occurring in some run's tags, without
duplicates, excluding the `mlflow.`-prefixed system tags. -/
def getVisibleTagKeyList (tagsList : List (List (String × String))) : List String :=
  ((tagsList.map (fun r => r.map Prod.fst)).flatten.dedup).filter
    (fun k => !(hasInternalTagStart k))

/-- The visible param columns: param keys not unchecked. -/
def visibleParamCols (paramKeyList : List String) (u : CategorizedKeys) :
    List String :=
  getFilteredKeys paramKeyList u.params

/-- The visible metric columns: metric keys not unchecked. -/
def visibleMetricCols (metricKeyList : List String) (u : CategorizedKeys) :
    List String :=
  getFilteredKeys metricKeyList u.metrics

/-- The visible tag columns: visible (non-system) tag keys not unchecked. -/
def visibleTagCols (runs : List RunData) (u : CategorizedKeys) : List String :=
  getFilteredKeys (getVisibleTagKeyList (runs.map RunData.tags)) u.tags

/-- Modelled from the spec: the header row of `toCsv` — the fixed columns
followed by the visible param, metric and tag columns, in that order. -/
def csvHeader (paramKeyList metricKeyList : List String) (u : CategorizedKeys)
    (runs : List RunData) : List String :=
  fixedCsvColumns ++ visibleParamCols paramKeyList u ++
    visibleMetricCols metricKeyList u ++ visibleTagCols runs u

/-- Modelled from the spec and the Download CSV tests: one data row — the
attribute cells (`Name`, `Source Type`, `Source Name`, `User` read from the
corresponding system tags) followed by the cells of the visible param,
metric and tag columns. -/
def csvDataRow (paramCols metricCols tagCols : List String) (r : RunData) :
    List String :=
  [r.info.startTime, r.info.duration, r.info.runId,
   cellValue r.tags runNameTagKey, cellValue r.tags sourceTypeTagKey,
   cellValue r.tags sourceNameTagKey, cellValue r.tags userTagKey,
   r.info.status] ++
    paramCols.map (cellValue r.params) ++ metricCols.map (cellValue r.metrics) ++
    tagCols.map (cellValue r.tags)

/-- `tableToCsv`: each row joined with commas, each line terminated. -/
def tableToCsv : List (List String) → String
  | [] => emptyCell
  | row :: rest => String.intercalate cellSep row ++ rowEnd ++ tableToCsv rest

/-- The full table: header row then one data row per run. -/
def csvLines (paramKeyList metricKeyList : List String) (u : CategorizedKeys)
    (runs : List RunData) : List (List String) :=
  csvHeader paramKeyList metricKeyList u runs ::
    runs.map (csvDataRow (visibleParamCols paramKeyList u)
      (visibleMetricCols metricKeyList u) (visibleTagCols runs u))

/-- Modelled from the spec: `toCsv` as invoked by `onDownloadCsv` — filter
each category by its unchecked keys, then serialize the table. -/
def onDownloadCsv (paramKeyList metricKeyList : List String) (u : CategorizedKeys)
    (runs : List RunData) : String :=
  tableToCsv (csvLines paramKeyList metricKeyList u runs)

/-- The run of the Download CSV test fixture: one finished run with one
param, one metric, the four system tags and two plain tags. -/
def sampleRun : RunData :=
  { info := { startTime := "start", duration := "0ms", runId := "run-id"
              status := "FINISHED" }
    params := [("batch_size", "512")]
    metrics := [("acc", "0.1")]
    tags := [("mlflow.runName", "name"), ("mlflow.source.name", "src.py"),
             ("mlflow.source.type", "LOCAL"), ("mlflow.user", "user"),
             ("a", "0"), ("b", "1")] }

/-- Singleton run list for the concrete-input theorems. -/
def sampleRuns : List RunData := [sampleRun]

/-- A plain (non-system) tag key of the fixture run. -/
def aTagKey : String := "a"

/-- C1: at `oneActiveState` one tracked polling request id is marked active,
yet `hasPendingPollingRequest` (an `.every`) is false and `pollData` with
the tab visible issues a new fetch — the claim that `poll()` is a no-op
whenever at least one tracked request is active fails on the code. -/
theorem pollData_fetches_with_one_request_active :
    requestActive oneActiveState.apis.getRegisteredModelReq = true ∧
    hasPendingPollingRequest oneActiveState.apis = false ∧
    (pollData true FetchOutcome.success oneActiveState).2.issuedFetch = true := by
  decide

/-- C2 counterexample: starting from the mounted state, a poll that fails
with `RESOURCE_DOES_NOT_EXIST` evicts the model and redirects but does NOT
clear the polling interval, and the very next timer tick issues a fetch
again — refuting the claim that the controller stops its own interval so
that every subsequent tick produces no fetch. -/
theorem pollData_notFound_does_not_stop_interval :
    (pollData true (FetchOutcome.failure notFoundCode) mountedState).2.evictedModel = true ∧
    (pollData true (FetchOutcome.failure notFoundCode) mountedState).2.redirected = true ∧
    (pollData true (FetchOutcome.failure notFoundCode) mountedState).2.clearedInterval = false ∧
    (pollData true (FetchOutcome.failure notFoundCode) mountedState).1.intervalActive = true ∧
    (timerTick true FetchOutcome.success
      (pollData true (FetchOutcome.failure notFoundCode) mountedState).1).2.issuedFetch = true := by
  decide

/-- C2 amended: on a `RESOURCE_DOES_NOT_EXIST` failure `pollData` logs,
evicts the model from local state and signals the redirect via the history
callback, but leaves its interval registered; the interval is cleared only
by `componentWillUnmount` (triggered by the redirect-induced unmount),
after which a timer tick produces no fetch. -/
theorem pollData_notFound_evicts_and_redirects (s : ModelPageState)
    (hp : hasPendingPollingRequest s.apis = false) :
    pollData true (FetchOutcome.failure notFoundCode) s =
      ({ s with apis := ⟨some false, some false⟩, modelPresent := false, redirected := true },
       { issuedFetch := true, loggedError := true, evictedModel := true
         redirected := true, clearedInterval := false, resolved := true }) ∧
    (componentWillUnmount
      (pollData true (FetchOutcome.failure notFoundCode) s).1).intervalActive = false ∧
    (∀ (v : Bool) (o : FetchOutcome),
      (timerTick v o (componentWillUnmount
        (pollData true (FetchOutcome.failure notFoundCode) s).1)).2.issuedFetch = false) := by
  refine ⟨?_, ?_, ?_⟩
  · simp [pollData, hp, loadDataComplete]
  · simp [componentWillUnmount]
  · intro v o
    simp [timerTick, componentWillUnmount, noFetchEffects]

/-- Witness for the amended C2 theorem at the concrete mounted state. -/
theorem pollData_notFound_evicts_and_redirects_witness :
    hasPendingPollingRequest mountedState.apis = false ∧
    (pollData true (FetchOutcome.failure notFoundCode) mountedState =
      ({ mountedState with
          apis := ⟨some false, some false⟩, modelPresent := false, redirected := true },
       { issuedFetch := true, loggedError := true, evictedModel := true
         redirected := true, clearedInterval := false, resolved := true }) ∧
     (componentWillUnmount
       (pollData true (FetchOutcome.failure notFoundCode) mountedState).1).intervalActive = false ∧
     (∀ (v : Bool) (o : FetchOutcome),
       (timerTick v o (componentWillUnmount
         (pollData true (FetchOutcome.failure notFoundCode) mountedState).1)).2.issuedFetch =
           false)) :=
  ⟨by decide, pollData_notFound_evicts_and_redirects mountedState (by decide)⟩

/-- C8: whenever the host tab is not visible, `pollData` leaves the state
untouched and returns the no-fetch, already-resolved result, whatever the
request states and whatever outcome a fetch would have had. -/
theorem pollData_noop_when_tab_hidden (s : ModelPageState) (outcome : FetchOutcome) :
    pollData false outcome s = (s, noFetchEffects) := by
  simp [pollData]

/-- C9: a poll whose fetch fails with any code other than
`RESOURCE_DOES_NOT_EXIST` logs the error and swallows it: the promise
resolves, no entity is evicted, no redirect is signaled, the interval is
not cleared, and at the resulting state the next timer tick issues a fetch
again (the retry). -/
theorem pollData_other_error_swallowed (s : ModelPageState) (code : String)
    (hp : hasPendingPollingRequest s.apis = false)
    (hcode : code ≠ notFoundCode)
    (hint : s.intervalActive = true) :
    pollData true (FetchOutcome.failure code) s =
      ({ s with apis := ⟨some false, some false⟩ },
       { issuedFetch := true, loggedError := true, evictedModel := false
         redirected := false, clearedInterval := false, resolved := true }) ∧
    (timerTick true FetchOutcome.success
      (pollData true (FetchOutcome.failure code) s).1).2.issuedFetch = true := by
  have hb : (code == notFoundCode) = false := by
    simpa using hcode
  have h1 : pollData true (FetchOutcome.failure code) s =
      ({ s with apis := ⟨some false, some false⟩ },
       { issuedFetch := true, loggedError := true, evictedModel := false
         redirected := false, clearedInterval := false, resolved := true }) := by
    simp [pollData, hp, hb, loadDataComplete]
  refine ⟨h1, ?_⟩
  rw [h1]
  simp [timerTick, hint, pollData, hasPendingPollingRequest, pollingRelatedRequests,
    requestActive]

/-- Witness for C9 at a concrete state and error code. -/
theorem pollData_other_error_swallowed_witness :
    hasPendingPollingRequest mountedState.apis = false ∧
    otherErrorCode ≠ notFoundCode ∧
    mountedState.intervalActive = true ∧
    (pollData true (FetchOutcome.failure otherErrorCode) mountedState =
      ({ mountedState with apis := ⟨some false, some false⟩ },
       { issuedFetch := true, loggedError := true, evictedModel := false
         redirected := false, clearedInterval := false, resolved := true }) ∧
     (timerTick true FetchOutcome.success
       (pollData true (FetchOutcome.failure otherErrorCode) mountedState).1).2.issuedFetch =
         true) :=
  ⟨by decide, by decide, by decide,
   pollData_other_error_swallowed mountedState otherErrorCode (by decide) (by decide)
     (by decide)⟩

/-- Helper: `setUnchecked` while the diff switch is on never touches the
switch flag or the pre-switch map. -/
theorem applySetEdits_on_preserves (edits : List (ColumnSet × List String)) :
    ∀ s : PersistedViewState, s.diffSwitchSelected = true →
      (applySetEdits edits s).diffSwitchSelected = true ∧
      (applySetEdits edits s).preSwitchUncheckedKeys = s.preSwitchUncheckedKeys := by
  induction edits with
  | nil => intro s h; exact ⟨h, rfl⟩
  | cons e es ih =>
    intro s h
    have h1 : (setUnchecked e.fst e.snd s).diffSwitchSelected = true := by
      simp [setUnchecked, h]
    have h2 : (setUnchecked e.fst e.snd s).preSwitchUncheckedKeys =
        s.preSwitchUncheckedKeys := by
      simp [setUnchecked, h]
    have hrec := ih (setUnchecked e.fst e.snd s) h1
    refine ⟨?_, ?_⟩
    · simpa [applySetEdits] using hrec.1
    · calc (applySetEdits (e :: es) s).preSwitchUncheckedKeys
          = (applySetEdits es (setUnchecked e.fst e.snd s)).preSwitchUncheckedKeys := by
            simp [applySetEdits]
        _ = (setUnchecked e.fst e.snd s).preSwitchUncheckedKeys := hrec.2
        _ = s.preSwitchUncheckedKeys := h2

/-- C3: from any diff-off state, toggling the diff switch on, performing any
sequence of `setUnchecked` edits, and toggling off restores `uncheckedKeys`
to its value before the first toggle — disabling restores it from the
untouched `preSwitchUncheckedKeys`. -/
theorem toggleDiff_twice_restores_uncheckedKeys (s : PersistedViewState)
    (d d' : CategorizedKeys) (edits : List (ColumnSet × List String))
    (h : s.diffSwitchSelected = false) :
    (toggleDiff d' (applySetEdits edits (toggleDiff d s))).uncheckedKeys =
      s.uncheckedKeys := by
  have hon : (toggleDiff d s).diffSwitchSelected = true := by
    simp [toggleDiff, h]
  have hpre : (toggleDiff d s).preSwitchUncheckedKeys = s.uncheckedKeys := by
    simp [toggleDiff, h]
  obtain ⟨h1, h2⟩ := applySetEdits_on_preserves edits (toggleDiff d s) hon
  have hgen : ∀ x : PersistedViewState, x.diffSwitchSelected = true →
      (toggleDiff d' x).uncheckedKeys = x.preSwitchUncheckedKeys := by
    intro x hx
    simp [toggleDiff, hx]
  rw [hgen _ h1, h2, hpre]

/-- Witness for C3 at a concrete state, diff result and edit list. -/
theorem toggleDiff_twice_restores_uncheckedKeys_witness :
    sampleOffState.diffSwitchSelected = false ∧
    (toggleDiff emptyCategorizedKeys
      (applySetEdits [(ColumnSet.params, ["pX"]), (ColumnSet.tags, [])]
        (toggleDiff sampleDiffCols sampleOffState))).uncheckedKeys =
      sampleOffState.uncheckedKeys :=
  ⟨by decide,
   toggleDiff_twice_restores_uncheckedKeys sampleOffState sampleDiffCols
     emptyCategorizedKeys [(ColumnSet.params, ["pX"]), (ColumnSet.tags, [])] (by decide)⟩

/-- Helper: every store operation preserves the section 3 invariant. -/
theorem viewInvariant_step (s : PersistedViewState) (op : ViewOp)
    (h : viewInvariant s) : viewInvariant (applyViewOp s op) := by
  obtain ⟨h1, h2⟩ := h
  cases op with
  | setOp cs keys =>
    cases hb : s.diffSwitchSelected with
    | true =>
      have hu : s.uncheckedKeys = s.postSwitchUncheckedKeys := h1 hb
      constructor
      · intro _
        simp [applyViewOp, setUnchecked, hb, hu]
      · intro hf
        simp [applyViewOp, setUnchecked, hb] at hf
    | false =>
      have hu : s.uncheckedKeys = s.preSwitchUncheckedKeys := h2 hb
      constructor
      · intro hf
        simp [applyViewOp, setUnchecked, hb] at hf
      · intro _
        simp [applyViewOp, setUnchecked, hb, hu]
  | toggleOp d =>
    cases hb : s.diffSwitchSelected with
    | true =>
      constructor
      · intro hf
        simp [applyViewOp, toggleDiff, hb] at hf
      · intro _
        simp [applyViewOp, toggleDiff, hb]
    | false =>
      constructor
      · intro _
        simp [applyViewOp, toggleDiff, hb]
      · intro hf
        simp [applyViewOp, toggleDiff, hb] at hf

/-- Helper: the invariant propagates along any fold of store operations. -/
theorem viewInvariant_foldl (ops : List ViewOp) :
    ∀ s : PersistedViewState, viewInvariant s →
      viewInvariant (ops.foldl applyViewOp s) := by
  induction ops with
  | nil => intro s h; exact h
  | cons op ops ih =>
    intro s h
    rw [List.foldl_cons]
    exact ih _ (viewInvariant_step s op h)

/-- C4: every sequence of `setUnchecked` and `toggleDiff` operations run
from the initial state lands in a state satisfying the invariant: with the
switch on `uncheckedKeys` equals `postSwitchUncheckedKeys`, with it off
`uncheckedKeys` equals `preSwitchUncheckedKeys`. -/
theorem runViewOps_viewInvariant (ops : List ViewOp) :
    viewInvariant (runViewOps ops) :=
  viewInvariant_foldl ops initialViewState ⟨fun _ => rfl, fun _ => rfl⟩

/-- Helper: a column's values are "identical across all rows" exactly when
any two rows agree on it. -/
theorem sameAcrossRows_iff (rows : List (List (String × String))) (k : String) :
    sameAcrossRows rows k = true ↔
      ∀ r ∈ rows, ∀ r' ∈ rows, lookupVal r k = lookupVal r' k := by
  cases rows with
  | nil => simp [sameAcrossRows]
  | cons a l =>
    simp only [sameAcrossRows, List.all_eq_true, beq_iff_eq]
    constructor
    · intro hall r hr r' hr'
      have hv : ∀ x ∈ a :: l, lookupVal x k = lookupVal a k := by
        intro x hx
        rcases List.mem_cons.mp hx with hx | hx
        · rw [hx]
        · exact hall x hx
      rw [hv r hr, hv r' hr']
    · intro hpair x hx
      exact hpair x (List.mem_cons_of_mem a hx) a (List.mem_cons_self a l)

/-- C5: enabling the diff switch from a diff-off state saves the current
`uncheckedKeys` into `preSwitchUncheckedKeys` and replaces both
`postSwitchUncheckedKeys` and `uncheckedKeys` with exactly the external
diff function's result, whose param part holds precisely the param columns
on which all rows agree (and likewise for the other categories). -/
theorem toggleDiff_enable_sets_diff_columns (s : PersistedViewState) (t : TableData)
    (h : s.diffSwitchSelected = false) :
    (toggleDiff (computeDiffColumns t) s).preSwitchUncheckedKeys = s.uncheckedKeys ∧
    (toggleDiff (computeDiffColumns t) s).postSwitchUncheckedKeys =
      computeDiffColumns t ∧
    (toggleDiff (computeDiffColumns t) s).uncheckedKeys = computeDiffColumns t ∧
    (toggleDiff (computeDiffColumns t) s).diffSwitchSelected = true ∧
    (∀ k, k ∈ (computeDiffColumns t).params ↔
      (k ∈ t.paramKeys ∧
        ∀ r ∈ t.paramsList, ∀ r' ∈ t.paramsList, lookupVal r k = lookupVal r' k)) := by
  refine ⟨by simp [toggleDiff, h], by simp [toggleDiff, h], by simp [toggleDiff, h],
    by simp [toggleDiff, h], ?_⟩
  intro k
  rw [show (computeDiffColumns t).params = diffViewCols t.paramKeys t.paramsList from rfl]
  simp [diffViewCols, List.mem_filter, sameAcrossRows_iff]

/-- Witness for C5 at a concrete state and concrete table data. -/
theorem toggleDiff_enable_sets_diff_columns_witness :
    sampleOffState.diffSwitchSelected = false ∧
    ((toggleDiff (computeDiffColumns sampleTable) sampleOffState).preSwitchUncheckedKeys =
        sampleOffState.uncheckedKeys ∧
      (toggleDiff (computeDiffColumns sampleTable) sampleOffState).postSwitchUncheckedKeys =
        computeDiffColumns sampleTable ∧
      (toggleDiff (computeDiffColumns sampleTable) sampleOffState).uncheckedKeys =
        computeDiffColumns sampleTable ∧
      (toggleDiff (computeDiffColumns sampleTable) sampleOffState).diffSwitchSelected = true ∧
      (∀ k, k ∈ (computeDiffColumns sampleTable).params ↔
        (k ∈ sampleTable.paramKeys ∧
          ∀ r ∈ sampleTable.paramsList, ∀ r' ∈ sampleTable.paramsList,
            lookupVal r k = lookupVal r' k))) :=
  ⟨by decide, toggleDiff_enable_sets_diff_columns sampleOffState sampleTable (by decide)⟩

/-- C6: a param, metric or tag column appears in the produced CSV exactly
when its key is not listed in the unchecked-key set of its category (tag
columns ranging over the visible tag keys of the runs), and the CSV is the
serialization headed by these columns. -/
theorem toCsv_omits_exactly_unchecked_columns (paramKeyList metricKeyList : List String)
    (u : CategorizedKeys) (runs : List RunData) (k : String) :
    (k ∈ visibleParamCols paramKeyList u ↔ (k ∈ paramKeyList ∧ k ∉ u.params)) ∧
    (k ∈ visibleMetricCols metricKeyList u ↔ (k ∈ metricKeyList ∧ k ∉ u.metrics)) ∧
    (k ∈ visibleTagCols runs u ↔
      (k ∈ getVisibleTagKeyList (runs.map RunData.tags) ∧ k ∉ u.tags)) ∧
    onDownloadCsv paramKeyList metricKeyList u runs =
      tableToCsv (csvLines paramKeyList metricKeyList u runs) := by
  refine ⟨?_, ?_, ?_, rfl⟩ <;>
    simp [visibleParamCols, visibleMetricCols, visibleTagCols, getFilteredKeys,
      List.mem_filter]

/-- C7: the CSV columns are, in order, the fixed attribute columns Start
Time, Duration, Run ID, Name, Source Type, Source Name, User, Status, then
the visible param columns, the visible metric columns and the visible tag
columns; the serialized CSV starts with this header line. -/
theorem toCsv_fixed_column_order (paramKeyList metricKeyList : List String)
    (u : CategorizedKeys) (runs : List RunData) :
    csvHeader paramKeyList metricKeyList u runs =
      ["Start Time", "Duration", "Run ID", "Name", "Source Type", "Source Name",
        "User", "Status"] ++ visibleParamCols paramKeyList u ++
        visibleMetricCols metricKeyList u ++ visibleTagCols runs u ∧
    onDownloadCsv paramKeyList metricKeyList u runs =
      String.intercalate cellSep (csvHeader paramKeyList metricKeyList u runs) ++
        rowEnd ++
        tableToCsv (runs.map (csvDataRow (visibleParamCols paramKeyList u)
          (visibleMetricCols metricKeyList u) (visibleTagCols runs u))) :=
  ⟨rfl, rfl⟩

/-- C10: no tag column of the produced CSV carries the `mlflow.` system
prefix — in particular the four system tags never appear as tag columns —
while each data row's Name, Source Type, Source Name and User cells (header
positions 3 to 6) hold the values of the `mlflow.runName`,
`mlflow.source.type`, `mlflow.source.name` and `mlflow.user` tags. -/
theorem toCsv_system_tags_populate_fixed_columns
    (paramCols metricCols tagCols : List String) (u : CategorizedKeys)
    (runs : List RunData) (r : RunData) :
    (∀ k, k ∈ visibleTagCols runs u → hasInternalTagStart k = false) ∧
    runNameTagKey ∉ visibleTagCols runs u ∧
    sourceTypeTagKey ∉ visibleTagCols runs u ∧
    sourceNameTagKey ∉ visibleTagCols runs u ∧
    userTagKey ∉ visibleTagCols runs u ∧
    (csvDataRow paramCols metricCols tagCols r).get? 3 =
      some (cellValue r.tags runNameTagKey) ∧
    (csvDataRow paramCols metricCols tagCols r).get? 4 =
      some (cellValue r.tags sourceTypeTagKey) ∧
    (csvDataRow paramCols metricCols tagCols r).get? 5 =
      some (cellValue r.tags sourceNameTagKey) ∧
    (csvDataRow paramCols metricCols tagCols r).get? 6 =
      some (cellValue r.tags userTagKey) := by
  have hmain : ∀ k, k ∈ visibleTagCols runs u → hasInternalTagStart k = false := by
    intro k hk
    have hvis : k ∈ getVisibleTagKeyList (runs.map RunData.tags) := by
      have hk2 : k ∈ getVisibleTagKeyList (runs.map RunData.tags) ∧ k ∉ u.tags := by
        simpa [visibleTagCols, getFilteredKeys, List.mem_filter] using hk
      exact hk2.1
    simpa [getVisibleTagKeyList, List.mem_filter] using (List.mem_filter.mp hvis).2
  have hsys : ∀ k, hasInternalTagStart k = true → k ∉ visibleTagCols runs u := by
    intro k hk hmem
    have := hmain k hmem
    rw [hk] at this
    exact Bool.noConfusion this
  refine ⟨hmain, hsys runNameTagKey (by decide), hsys sourceTypeTagKey (by decide),
    hsys sourceNameTagKey (by decide), hsys userTagKey (by decide), rfl, rfl, rfl, rfl⟩

/-- Witness for C10 at the test-fixture run: the plain tag key is a visible
tag column, and the theorem yields its system-prefix-freeness together with
the system-tag exclusions and the populated attribute cells. -/
theorem toCsv_system_tags_populate_fixed_columns_witness :
    aTagKey ∈ visibleTagCols sampleRuns emptyCategorizedKeys ∧
    hasInternalTagStart aTagKey = false ∧
    runNameTagKey ∉ visibleTagCols sampleRuns emptyCategorizedKeys ∧
    (csvDataRow [] [] [] sampleRun).get? 3 =
      some (cellValue sampleRun.tags runNameTagKey) :=
  ⟨by decide,
   (toCsv_system_tags_populate_fixed_columns [] [] [] emptyCategorizedKeys
     sampleRuns sampleRun).1 aTagKey (by decide),
   (toCsv_system_tags_populate_fixed_columns [] [] [] emptyCategorizedKeys
     sampleRuns sampleRun).2.1,
   (toCsv_system_tags_populate_fixed_columns [] [] [] emptyCategorizedKeys
     sampleRuns sampleRun).2.2.2.2.2.1⟩
